import Mathlib

/-!
Verification development for the HypnoS chess engine (a Stockfish
derivative).  The definitions below are a shallow embedding of the parts
of `src/evaluate.cpp`, `src/search.cpp`, `src/uci.cpp` and `src/tt.h`
that the examined properties are about.  Machine integers are modelled
as `Int` with C-style truncating division (`Int.tdiv`); the chess rules
engine (class `Position`) is an external collaborator and is modelled by
the interface results the embedded code reads from it.
-/

/-- C++ `std::abs` on `int`. -/
def cppAbs (v : Int) : Int := if v < 0 then -v else v

/-- C++ `std::clamp(v, lo, hi)`: `v < lo ? lo : hi < v ? hi : v`. -/
def cppClamp (v lo hi : Int) : Int := if v < lo then lo else if hi < v then hi else v

/-- Modelled from the spec: `types.h` is not among the sources; `MAX_PLY`
comes from the spec data model (SearchStack indexed up to `MAX_PLY+2`),
with the upstream Stockfish default value this fork derives from. -/
def MAX_PLY : Int := 246

/-- Modelled from the spec: reserved `Value` range `±MATE` of section 3,
with the upstream Stockfish default (`types.h` is not among the sources). -/
def VALUE_MATE : Int := 32000

/-- Modelled from the spec: reserved `Value` `±INFINITE` of section 3. -/
def VALUE_INFINITE : Int := 32001

/-- Modelled from the spec: the `NONE` sentinel `Value` of section 3. -/
def VALUE_NONE : Int := 32002

/-- Modelled from the spec: `MATE_IN(ply) = MATE - ply` at the deepest ply. -/
def VALUE_MATE_IN_MAX_PLY : Int := VALUE_MATE - MAX_PLY

/-- Modelled from the spec: `MATED_IN(ply) = -MATE + ply` at the deepest ply. -/
def VALUE_MATED_IN_MAX_PLY : Int := -VALUE_MATE_IN_MAX_PLY

/-- Modelled from the spec: top of the tablebase-derived range `±TB`. -/
def VALUE_TB : Int := VALUE_MATE_IN_MAX_PLY - 1

/-- Modelled from the spec: upper end of the tablebase range
`[TB_LOSS_IN_MAX_PLY, TB_WIN_IN_MAX_PLY]` of section 3. -/
def VALUE_TB_WIN_IN_MAX_PLY : Int := VALUE_TB - MAX_PLY

/-- Modelled from the spec: lower end of the tablebase range. -/
def VALUE_TB_LOSS_IN_MAX_PLY : Int := -VALUE_TB_WIN_IN_MAX_PLY

/-- Modelled from the spec: `DRAW = 0` in the `Value` data model. -/
def VALUE_DRAW : Int := 0

/-- Modelled from the spec: the pawn value used by `simple_eval`
(`evaluate.cpp` line 116); `types.h` is not among the sources, so the
upstream Stockfish default is used. -/
def PawnValue : Int := 208

/-- Modelled from the spec: the centipawn normalisation constant of
`UCI::to_cp` (`uci.cpp` line 346).  Its value is pinned by the
`static_assert` at `uci.cpp` line 240 to
`int(0.38036525 - 2.82015070 + 23.17882135 + 307.36768407) = 328`. -/
def NormalizeToPawnValue : Int := 328

/-- `mated_in(ply)` of the search: `-VALUE_MATE + ply`. -/
def mated_in (ply : Int) : Int := -VALUE_MATE + ply

/-- `mate_in(ply)` of the search: `VALUE_MATE - ply`. -/
def mate_in (ply : Int) : Int := VALUE_MATE - ply

/-- Piece colors of the external `Position` collaborator. -/
inductive Color
  | white
  | black
deriving DecidableEq

/-- The other color (C++ `~c`). -/
def Color.other : Color → Color
  | .white => .black
  | .black => .white

/-- Piece types of the external `Position` collaborator. -/
inductive PieceType
  | pawn
  | knight
  | bishop
  | rook
  | queen
  | king
deriving DecidableEq

/-- Interface view of the external `Position` collaborator (spec
section 6): the query results `evaluate.cpp` reads.  Squares are
numbered 0..63 (`SQ_A1..SQ_H8`); `pieceOn s = none` models `NO_PIECE`.
`isNearEnemyKing`, `isIsolated` and `isOnSeventhRank` are the results of
`pos.is_near_enemy_king(s)`, `pos.is_isolated(s, pawns-of-side-to-move)`
and `pos.is_on_seventh_rank(s, side_to_move)`; `canCastleAny` is
`pos.can_castle(KING_SIDE | QUEEN_SIDE)`; `checkers` is whether
`pos.checkers()` is nonempty. -/
structure Position where
  sideToMove : Color
  pieceOn : Nat → Option (Color × PieceType)
  isNearEnemyKing : Nat → Bool
  isIsolated : Nat → Bool
  isOnSeventhRank : Nat → Bool
  canCastleAny : Bool
  checkers : Bool
  pawnCount : Color → Nat
  knightCount : Color → Nat
  bishopCount : Color → Nat
  rookCount : Color → Nat
  queenCount : Color → Nat
  nonPawnMaterial : Color → Int
  rule50 : Nat

/-- The square loop `for (Square s = SQ_A1; s <= SQ_H8; ++s)`. -/
def squares : List Nat := List.range 64

/-- Modelled from the spec: `relative_rank(c, s)` of the missing
`types.h`, the rank of `s` from the point of view of color `c`
(`r ^ (c * 7)`, i.e. `r` for White and `7 - r` for Black). -/
def relativeRank (c : Color) (s : Nat) : Nat :=
  if c = Color.white then s / 8 else 7 - s / 8

/-- `calculate_aggressiveness_bonus` (`evaluate.cpp` lines 49-58):
+20 for every friendly knight near the enemy king. -/
def calculate_aggressiveness_bonus (pos : Position) : Int :=
  (squares.map (fun s =>
    if pos.pieceOn s = some (pos.sideToMove, PieceType.knight) ∧ pos.isNearEnemyKing s = true
    then (20 : Int) else 0)).sum

/-- `calculate_defensiveness_bonus` (`evaluate.cpp` lines 61-74):
-15 for every isolated friendly pawn, +40 when castling is available. -/
def calculate_defensiveness_bonus (pos : Position) : Int :=
  (squares.map (fun s =>
    if pos.pieceOn s = some (pos.sideToMove, PieceType.pawn) ∧ pos.isIsolated s = true
    then (-15 : Int) else 0)).sum
  + (if pos.canCastleAny then 40 else 0)

/-- `calculate_positional_bonus` (`evaluate.cpp` lines 77-89):
+10 per friendly bishop, +15 per friendly rook on the seventh rank. -/
def calculate_positional_bonus (pos : Position) : Int :=
  (squares.map (fun s =>
    (if pos.pieceOn s = some (pos.sideToMove, PieceType.bishop) then (10 : Int) else 0)
    + (if pos.pieceOn s = some (pos.sideToMove, PieceType.rook) ∧ pos.isOnSeventhRank s = true
       then (15 : Int) else 0))).sum

/-- `calculate_hypnos_default_bonus` (`evaluate.cpp` lines 92-111):
+10 per developed friendly minor piece, +5 per friendly pawn on the D or
E file. -/
def calculate_hypnos_default_bonus (pos : Position) : Int :=
  (squares.map (fun s =>
    match pos.pieceOn s with
    | none => (0 : Int)
    | some (c, pt) =>
      if c = pos.sideToMove then
        (if (pt = PieceType.knight ∨ pt = PieceType.bishop)
            ∧ s / 8 ≠ (if pos.sideToMove = Color.white then 0 else 7)
         then (10 : Int) else 0)
        + (if pt = PieceType.pawn ∧ (s % 8 = 3 ∨ s % 8 = 4) then (5 : Int) else 0)
      else 0)).sum

/-- `simple_eval` (`evaluate.cpp` lines 114-118). -/
def simple_eval (pos : Position) : Int :=
  PawnValue * ((pos.pawnCount pos.sideToMove : Int) - (pos.pawnCount pos.sideToMove.other : Int))
    + (pos.nonPawnMaterial pos.sideToMove - pos.nonPawnMaterial pos.sideToMove.other)

/-- `use_smallnet` (`evaluate.cpp` line 120):
`std::abs(simple_eval(pos)) > 962`. -/
def use_smallnet (pos : Position) : Bool := 962 < cppAbs (simple_eval pos)

/-- The evaluation styles of `Eval::EvalStyle`. -/
inductive EvalStyle
  | styleDefault
  | aggressive
  | defensive
  | positionalStyle
deriving DecidableEq

/-- Option state read by `Eval::evaluate`: the globals
`MaterialisticEvaluationStrategy`, `PositionalEvaluationStrategy`,
`useDynamicStrategy` and `style` (`evaluate.cpp` lines 42-46). -/
structure EvalOptions where
  materialStrategy : Int
  positionalStrategy : Int
  dynamicStrategy : Bool
  style : EvalStyle

/-- The mixing weights of `Eval::evaluate` (`evaluate.cpp` lines
135-155): base (125, 131), shifted by the phase when dynamic strategy is
on, then offset by the two manual strategies. -/
def evalWeights (opts : EvalOptions) (pos : Position) : Int × Int :=
  let base : Int × Int := (125, 131)
  let w :=
    if opts.dynamicStrategy then
      let totalPhase : Int := 24
      let phase0 := totalPhase
        - ((pos.knightCount Color.white : Int) + (pos.knightCount Color.black : Int))
        - ((pos.bishopCount Color.white : Int) + (pos.bishopCount Color.black : Int))
        - 2 * ((pos.rookCount Color.white : Int) + (pos.rookCount Color.black : Int))
        - 4 * ((pos.queenCount Color.white : Int) + (pos.queenCount Color.black : Int))
      let phase := cppClamp phase0 0 totalPhase
      (base.1 - (totalPhase - phase), base.2 + (totalPhase - phase))
    else base
  (w.1 + opts.materialStrategy, w.2 + opts.positionalStrategy)

/-- The network blend `(materialWeight * psqt + positionalWeight *
positional) / 128` (`evaluate.cpp` line 157). -/
def blend (mw pw psqt positional : Int) : Int :=
  Int.tdiv (mw * psqt + pw * positional) 128

/-- The style adjustment applied to `nnue` (`evaluate.cpp` lines
159-196), style by style, including the inline loops that repeat the
helper bonuses. -/
def styleAdjust (opts : EvalOptions) (pos : Position) (nnue : Int) : Int :=
  match opts.style with
  | .aggressive =>
      nnue + calculate_aggressiveness_bonus pos
        + (squares.map (fun s =>
            (if pos.pieceOn s = some (pos.sideToMove, PieceType.knight)
                ∧ pos.isNearEnemyKing s = true
             then (20 : Int) else 0)
            + (if pos.pieceOn s = some (pos.sideToMove, PieceType.pawn)
                  ∧ 4 ≤ relativeRank pos.sideToMove s
               then (10 : Int) else 0))).sum
  | .defensive =>
      nnue - calculate_aggressiveness_bonus pos + calculate_defensiveness_bonus pos
        + (squares.map (fun s =>
            if pos.pieceOn s = some (pos.sideToMove, PieceType.pawn) ∧ pos.isIsolated s = true
            then (-15 : Int) else 0)).sum
        + (if pos.canCastleAny then 40 else 0)
  | .positionalStyle =>
      nnue + calculate_positional_bonus pos
        + (squares.map (fun s =>
            (if pos.pieceOn s = some (pos.sideToMove, PieceType.bishop) then (10 : Int) else 0)
            + (if pos.pieceOn s = some (pos.sideToMove, PieceType.rook)
                  ∧ pos.isOnSeventhRank s = true
               then (15 : Int) else 0))).sum
  | .styleDefault => nnue + calculate_hypnos_default_bonus pos

/-- The network output pair selected at `evaluate.cpp` lines 131-133:
small net when `use_smallnet`, big net otherwise.  The two networks are
external collaborators, modelled as functions from the position to the
`(psqt, positional)` pair they return. -/
def netOutput (bigNet smallNet : Position → Int × Int) (pos : Position) : Int × Int :=
  if use_smallnet pos then smallNet pos else bigNet pos

/-- The value of the local `nnue` after the style adjustment
(`evaluate.cpp` lines 157-196). -/
def nnueStyled (bigNet smallNet : Position → Int × Int) (opts : EvalOptions)
    (pos : Position) : Int :=
  styleAdjust opts pos
    (blend (evalWeights opts pos).1 (evalWeights opts pos).2
      (netOutput bigNet smallNet pos).1 (netOutput bigNet smallNet pos).2)

/-- The re-evaluation condition of `evaluate.cpp` line 198:
`smallNet && (std::abs(nnue) < 236)`. -/
def reEvalCond (bigNet smallNet : Position → Int × Int) (opts : EvalOptions)
    (pos : Position) : Bool :=
  use_smallnet pos && (cppAbs (nnueStyled bigNet smallNet opts pos) < 236)

/-- The `(psqt, positional, nnue)` triple after the possible big-net
re-evaluation (`evaluate.cpp` lines 198-202). -/
def finalTriple (bigNet smallNet : Position → Int × Int) (opts : EvalOptions)
    (pos : Position) : Int × Int × Int :=
  if reEvalCond bigNet smallNet opts pos then
    ((bigNet pos).1, (bigNet pos).2,
      blend (evalWeights opts pos).1 (evalWeights opts pos).2 (bigNet pos).1 (bigNet pos).2)
  else
    ((netOutput bigNet smallNet pos).1, (netOutput bigNet smallNet pos).2,
      nnueStyled bigNet smallNet opts pos)

/-- The tail of `Eval::evaluate` (`evaluate.cpp` lines 204-214):
complexity damping, material blend, shuffling damp and the final clamp
to the open interval `(VALUE_TB_LOSS_IN_MAX_PLY, VALUE_TB_WIN_IN_MAX_PLY)`. -/
def finalize (pos : Position) (optimism psqt positional nnue : Int) : Int :=
  let nnueComplexity := cppAbs (psqt - positional)
  let optimism2 := optimism + Int.tdiv (optimism * nnueComplexity) 468
  let nnue2 := nnue - Int.tdiv (nnue * nnueComplexity) 18000
  let material := 535 * ((pos.pawnCount Color.white : Int) + (pos.pawnCount Color.black : Int))
    + (pos.nonPawnMaterial Color.white + pos.nonPawnMaterial Color.black)
  let v := Int.tdiv (nnue2 * (77777 + material) + optimism2 * (7777 + material)) 77777
  let v2 := v - Int.tdiv (v * (pos.rule50 : Int)) 212
  cppClamp v2 (VALUE_TB_LOSS_IN_MAX_PLY + 1) (VALUE_TB_WIN_IN_MAX_PLY - 1)

/-- `Eval::evaluate` (`evaluate.cpp` lines 123-215), composed from the
pieces above. -/
def evaluate (bigNet smallNet : Position → Int × Int) (opts : EvalOptions)
    (pos : Position) (optimism : Int) : Int :=
  finalize pos optimism (finalTriple bigNet smallNet opts pos).1
    (finalTriple bigNet smallNet opts pos).2.1 (finalTriple bigNet smallNet opts pos).2.2

/-- Number of friendly knights near the enemy king (the count the
claimed Aggressive bonus is stated over). -/
def knightNearCount (pos : Position) : Nat :=
  squares.countP (fun s =>
    decide (pos.pieceOn s = some (pos.sideToMove, PieceType.knight)
      ∧ pos.isNearEnemyKing s = true))

/-- Number of friendly pawns on relative rank at least 5 (rank index 4). -/
def advancedPawnCount (pos : Position) : Nat :=
  squares.countP (fun s =>
    decide (pos.pieceOn s = some (pos.sideToMove, PieceType.pawn)
      ∧ 4 ≤ relativeRank pos.sideToMove s))

/-- `value_to_tt` (`search.cpp` lines 1954-1959): translate a mate or TB
score from plies-from-root to plies-from-current before a TT store. -/
def value_to_tt (v ply : Int) : Int :=
  if VALUE_TB_WIN_IN_MAX_PLY ≤ v then v + ply
  else if v ≤ VALUE_TB_LOSS_IN_MAX_PLY then v - ply
  else v

/-- `value_from_tt` (`search.cpp` lines 1967-2001): the inverse
translation on a TT read, with the 50-move-rule demotion of potentially
false mate and TB scores. -/
def value_from_tt (v ply r50c : Int) : Int :=
  if v = VALUE_NONE then VALUE_NONE
  else if VALUE_TB_WIN_IN_MAX_PLY ≤ v then
    if VALUE_MATE_IN_MAX_PLY ≤ v ∧ 100 - r50c < VALUE_MATE - v then VALUE_TB_WIN_IN_MAX_PLY - 1
    else if 100 - r50c < VALUE_TB - v then VALUE_TB_WIN_IN_MAX_PLY - 1
    else v - ply
  else if v ≤ VALUE_TB_LOSS_IN_MAX_PLY then
    if v ≤ VALUE_MATED_IN_MAX_PLY ∧ 100 - r50c < VALUE_MATE + v then VALUE_TB_LOSS_IN_MAX_PLY + 1
    else if 100 - r50c < VALUE_TB + v then VALUE_TB_LOSS_IN_MAX_PLY + 1
    else v + ply
  else v

/-- The razoring test of `search.cpp` line 1036:
`eval < alpha - 488 - (289 - 142 * ((ss+1)->cutoffCnt > 3)) * depth * depth`.
`cutoffHigh` stands for `(ss+1)->cutoffCnt > 3`. -/
def razorCondition (eval alpha depth : Int) (cutoffHigh : Bool) : Bool :=
  eval < alpha - 488 - (289 - 142 * (if cutoffHigh then 1 else 0)) * depth * depth

/-- Step 7 of `search` (`search.cpp` lines 1032-1041) as an observable
pair: whether the razoring `qsearch` is performed, and the early return
value if any.  `qvalue` is the value the razoring `qsearch` would
return. -/
def razorStep (eval alpha depth : Int) (cutoffHigh : Bool) (qvalue : Int) :
    Bool × Option Int :=
  if razorCondition eval alpha depth cutoffHigh then
    (true, if qvalue < alpha then some qvalue else none)
  else (false, none)

/-- The razoring test as the examined claim words it:
`eval < alpha - 488 - 289 * depth * depth`. -/
def specRazorCondition (eval alpha depth : Int) : Bool :=
  eval < alpha - 488 - 289 * depth * depth

/-- Modelled from the spec: the two-bit TT bound encoding of section 3
(`bound ∈ {NONE, UPPER, LOWER, EXACT}`); `types.h` is not among the
sources, so the upstream Stockfish encoding NONE=0, UPPER=1, LOWER=2,
EXACT=3 is used. -/
def BOUND_LOWER : Nat := 2

/-- The in-check ProbCut early return of `search.cpp` lines 1167-1171,
conjunct by conjunct as written in the source, including the malformed
tail `... && std::abs(beta) && std::abs(ttValue) < VALUE_TB_WIN_IN_MAX_PLY
&& (tte->bound() & BOUND_LOWER) < VALUE_TB_WIN_IN_MAX_PLY`:
`std::abs(beta)` converts to `beta != 0`, and the last comparison tests
the two-bit bound value, not `beta`, against the TB bound. -/
def inCheckProbCutReturns (inCheck pvNode ttCapture : Bool) (bound : Nat)
    (ttDepth depth ttValue beta : Int) : Bool :=
  inCheck && !pvNode && ttCapture && (Nat.land bound BOUND_LOWER ≠ 0)
    && (depth - 4 ≤ ttDepth) && (beta + 409 ≤ ttValue)
    && (cppAbs ttValue < VALUE_TB_WIN_IN_MAX_PLY) && (cppAbs beta ≠ 0)
    && (cppAbs ttValue < VALUE_TB_WIN_IN_MAX_PLY)
    && ((Nat.land bound BOUND_LOWER : Int) < VALUE_TB_WIN_IN_MAX_PLY)

/-- The in-check ProbCut condition as the spec intends it (section 9,
open questions; the examined claim): ttCapture, TT lower bound, ttDepth
at least depth-4, ttValue at least probCutBeta, and both ttValue and
beta inside the TB-safe range. -/
def specInCheckProbCutReturns (inCheck pvNode ttCapture : Bool) (bound : Nat)
    (ttDepth depth ttValue beta : Int) : Bool :=
  inCheck && !pvNode && ttCapture && (Nat.land bound BOUND_LOWER ≠ 0)
    && (depth - 4 ≤ ttDepth) && (beta + 409 ≤ ttValue)
    && (cppAbs ttValue < VALUE_TB_WIN_IN_MAX_PLY)
    && (cppAbs beta < VALUE_TB_WIN_IN_MAX_PLY)

/-- The cluster index computed by `TranspositionTable::first_entry`
(`tt.h` lines 99-101): `(key * (__uint128_t)clusterCount) >> 64`, the
product taken in 128-bit arithmetic. -/
def first_entry_index (key clusterCount : Nat) : Nat :=
  (key * clusterCount) % 2 ^ 128 / 2 ^ 64

/-- The score part of a UCI `info` line: `cp x` or `mate y`.  String
rendering by `std::stringstream` is elided. -/
inductive UciScore
  | cp (x : Int)
  | mate (y : Int)
deriving DecidableEq

/-- `UCI::to_cp` (`uci.cpp` line 346): `100 * v / NormalizeToPawnValue`
in truncating `int` division. -/
def to_cp (v : Int) : Int := Int.tdiv (100 * v) NormalizeToPawnValue

/-- `UCI::value` (`uci.cpp` lines 353-370): normal scores as
centipawns, TB-range scores as `cp +-(20000 - ply)` with
`ply = VALUE_TB - 1 - |v|`, mate-range scores as a mate distance in
moves. -/
def uciValue (v : Int) : UciScore :=
  if cppAbs v < VALUE_TB_WIN_IN_MAX_PLY then .cp (to_cp v)
  else if cppAbs v ≤ VALUE_TB then
    .cp (if 0 < v then 20000 - (VALUE_TB - 1 - cppAbs v) else -20000 + (VALUE_TB - 1 - cppAbs v))
  else .mate (Int.tdiv (if 0 < v then VALUE_MATE - v + 1 else -VALUE_MATE - v) 2)

/-- `UCI::value` as the examined claim words it: every non-mate score is
emitted as `cp (100 * v / NormalizeToPawnValue)`, every mate score as
`mate (MATE - v + 1) / 2` or `mate (-MATE - v) / 2`. -/
def specUciValue (v : Int) : UciScore :=
  if VALUE_MATE_IN_MAX_PLY ≤ cppAbs v then
    .mate (Int.tdiv (if 0 < v then VALUE_MATE - v + 1 else -VALUE_MATE - v) 2)
  else .cp (to_cp v)

/-- One iteration of the step 13 move loop of `search` (`search.cpp`
lines 1191-1582) as seen by the search-window flow: which of the child
searches ran for this move (`lmr`: the reduced zero-window search of
line 1440; `research`: the fail-high re-search of line 1453; `zw`: the
step 18 zero-window search of line 1472; `pvFull`: the full-window PV
search of line 1482) and the value the move finally got. -/
structure MoveEv where
  lmr : Bool
  research : Bool
  zw : Bool
  pvFull : Bool
  value : Int

/-- The child windows passed by the move loop of `search`, threading
alpha exactly as `search.cpp` lines 1543-1570 do: on `value >= beta` the
loop breaks; on `alpha < value < beta` it sets `alpha = value`. -/
def searchLoopWindows : Int → Int → List MoveEv → List (Int × Int)
  | _, _, [] => []
  | a, b, e :: es =>
    ((if e.lmr then [(-(a + 1), -a)] else [])
      ++ (if e.research then [(-(a + 1), -a)] else [])
      ++ (if e.zw then [(-(a + 1), -a)] else [])
      ++ (if e.pvFull then [(-b, -a)] else []))
    ++ (if b ≤ e.value then []
        else if a < e.value then searchLoopWindows e.value b es
        else searchLoopWindows a b es)

/-- `probCutBeta` of `search.cpp` line 1108:
`beta + 170 - 64 * improving + 150 * ((ss+1)->cutoffCnt > 3)`. -/
def probCutBetaVal (beta : Int) (improving cutoffHigh : Bool) : Int :=
  beta + 170 - 64 * (if improving then 1 else 0) + 150 * (if cutoffHigh then 1 else 0)

/-- The control-flow facts of one `search` node that decide which child
calls run and with which windows: `depthLeZero` is the depth <= 0 drop
to qsearch (line 713), `hasCycle`/`drawValue` the repetition-cycle alpha
clamp (lines 717-722), `ply` feeds mate-distance pruning (lines
774-777), `razor`/`nullMove`/`verification`/`iirToQs`/`probCutMoves`/
`singular` say which of the pre-move-loop child searches ran (lines
1038, 1069, 1085, 1101, 1142-1147, 1318), and `events` the move loop. -/
structure NodeCtx where
  rootNode : Bool
  depthLeZero : Bool
  hasCycle : Bool
  drawValue : Int
  ply : Int
  razor : Bool
  nullMove : Bool
  verification : Bool
  iirToQs : Bool
  probCutMoves : Nat
  improving : Bool
  cutoffHigh : Bool
  singular : Bool
  singularBeta : Int
  events : List MoveEv

/-- The alpha after the repetition-cycle clamp of `search.cpp` lines
717-722 (applied at non-root nodes when `alpha < VALUE_DRAW` and the
position has a game cycle). -/
def cycleAlpha (ctx : NodeCtx) (alpha : Int) : Int :=
  if ¬ ctx.rootNode ∧ ctx.hasCycle = true ∧ alpha < VALUE_DRAW then ctx.drawValue else alpha

/-- The alpha after mate-distance pruning, `search.cpp` line 774:
`alpha = std::max(mated_in(ss->ply), alpha)` at non-root nodes. -/
def mdAlpha (ctx : NodeCtx) (a0 : Int) : Int :=
  if ctx.rootNode then a0 else max (mated_in ctx.ply) a0

/-- The beta after mate-distance pruning, `search.cpp` line 775:
`beta = std::min(mate_in(ss->ply + 1), beta)` at non-root nodes. -/
def mdBeta (ctx : NodeCtx) (beta : Int) : Int :=
  if ctx.rootNode then beta else min (mate_in (ctx.ply + 1)) beta

/-- The window of a child search that runs only under a condition: the
one window `x` when the condition held, nothing otherwise. -/
def optWindow (c : Bool) (x : Int × Int) : List (Int × Int) :=
  if c then [x] else []

/-- All `(alpha, beta)` windows `search` passes to its recursive
children (`search` and `qsearch`), for a node entered with window
`(alpha, beta)`.  Mirrors `search.cpp`: depth <= 0 drops into qsearch
with the same window (line 713); the repetition-cycle clamp may raise
alpha to the draw value and return when the window closes (lines
717-722); at non-root nodes mate-distance pruning tightens both bounds
and returns when they cross (lines 774-777); then the razoring qsearch
`(alpha-1, alpha)` (line 1038), the null-move search `(-beta, -beta+1)`
(line 1069), the verification search `(beta-1, beta)` (line 1085), the
post-IIR qsearch with the same window (line 1101), one zero-window pair
`(-probCutBeta, -probCutBeta+1)` per ProbCut candidate (lines
1142-1147), the singular search `(singularBeta-1, singularBeta)` (line
1318), and the move loop windows. -/
def searchChildWindows (ctx : NodeCtx) (alpha beta : Int) : List (Int × Int) :=
  if ctx.depthLeZero then [(alpha, beta)]
  else
    let a0 := cycleAlpha ctx alpha
    if beta ≤ a0 then []
    else
      let a1 := mdAlpha ctx a0
      let b1 := mdBeta ctx beta
      if b1 ≤ a1 then []
      else
        optWindow ctx.razor (a1 - 1, a1)
        ++ optWindow ctx.nullMove (-b1, -b1 + 1)
        ++ optWindow ctx.verification (b1 - 1, b1)
        ++ optWindow ctx.iirToQs (a1, b1)
        ++ List.replicate ctx.probCutMoves
             (-(probCutBetaVal b1 ctx.improving ctx.cutoffHigh),
              -(probCutBetaVal b1 ctx.improving ctx.cutoffHigh) + 1)
        ++ optWindow ctx.singular (ctx.singularBeta - 1, ctx.singularBeta)
        ++ searchLoopWindows a1 b1 ctx.events

/-- One iteration of the `qsearch` move loop as seen by the window
flow: whether the move survived pruning and was searched (lines
1803-1882), and the value it got. -/
structure QEv where
  searched : Bool
  value : Int

/-- The child windows passed by the `qsearch` move loop (`search.cpp`
line 1882): every searched move gets `(-beta, -alpha)`, and alpha is
updated exactly as lines 1888-1904 do. -/
def qsearchLoopWindows : Int → Int → List QEv → List (Int × Int)
  | _, _, [] => []
  | a, b, e :: es =>
    if e.searched then
      (-b, -a) ::
        (if b ≤ e.value then []
         else if a < e.value then qsearchLoopWindows e.value b es
         else qsearchLoopWindows a b es)
    else qsearchLoopWindows a b es

/-- The alpha after the repetition-cycle clamp of `qsearch`
(`search.cpp` lines 1664-1669). -/
def qcycleAlpha (hasCycle : Bool) (drawValue alpha : Int) : Int :=
  if hasCycle = true ∧ alpha < VALUE_DRAW then drawValue else alpha

/-- The alpha after the stand-pat raise of `qsearch` (`search.cpp`
lines 1782-1783): `if (bestValue > alpha) alpha = bestValue`, applied
only when not in check. -/
def qstandAlpha (inCheck : Bool) (standPat a0 : Int) : Int :=
  if ¬ inCheck ∧ a0 < standPat then standPat else a0

/-- All windows `qsearch` passes to its recursive children, for a node
entered with `(alpha, beta)`.  Mirrors `search.cpp` lines 1653-1905:
the repetition-cycle clamp (lines 1664-1669), then (when not in check)
the stand-pat return on `bestValue >= beta` and the alpha raise to the
static `bestValue` (lines 1772-1783), then the move loop.  `standPat`
is the `bestValue` established by step 4. -/
def qsearchChildWindows (hasCycle : Bool) (drawValue : Int) (inCheck : Bool)
    (standPat : Int) (alpha beta : Int) (events : List QEv) : List (Int × Int) :=
  let a0 := qcycleAlpha hasCycle drawValue alpha
  if beta ≤ a0 then []
  else if ¬ inCheck ∧ beta ≤ standPat then []
  else qsearchLoopWindows (qstandAlpha inCheck standPat a0) beta events

/-- One pseudo-legal move of the in-check `qsearch` move loop
(`search.cpp` lines 1803-1905): its legality, whether it is a capture
(`pos.capture_stage`), whether both continuation histories are negative
(line 1860), whether `see_ge(move, -78)` fails (line 1865), and the
value `-qsearch(...)` returns for it (line 1882). -/
structure QMoveEv where
  legal : Bool
  capture : Bool
  contHistNeg : Bool
  seeBad : Bool
  value : Int

/-- The per-move tail of the in-check `qsearch` loop once a move is
actually searched: the counter increment of line 1878 and the
best-value/alpha/break logic of lines 1888-1904.  Returns the new
`(alpha, bestValue, quietCheckEvasions, loop-broken)`. -/
def qsearchInCheckStep (alpha beta best : Int) (qce : Nat) (m : QMoveEv) :
    Int × Int × Nat × Bool :=
  let qce1 := if m.capture then qce else qce + 1
  if best < m.value then
    if alpha < m.value then
      if m.value < beta then (m.value, m.value, qce1, false)
      else (alpha, m.value, qce1, true)
    else (alpha, m.value, qce1, false)
  else (alpha, best, qce1, false)

/-- The in-check `qsearch` move loop (`search.cpp` lines 1803-1905),
returning the final `quietCheckEvasions` counter, i.e. the number of
quiet (non-capture) evasions that were searched.  When in check the
step 6 futility sub-block is inert (`futilityBase = -VALUE_INFINITE`,
line 1733), so the pruning block reduces to: the two-quiet-evasions
break (line 1856), continuation-history pruning (line 1860) and SEE
pruning (line 1865), all guarded by
`bestValue > VALUE_TB_LOSS_IN_MAX_PLY && pos.non_pawn_material(us)`
(line 1817). -/
def qsearchInCheckLoop (npmNonZero : Bool) (beta : Int) :
    Int → Int → Nat → List QMoveEv → Nat
  | _, _, qce, [] => qce
  | alpha, best, qce, m :: ms =>
    if m.legal = false then qsearchInCheckLoop npmNonZero beta alpha best qce ms
    else if VALUE_TB_LOSS_IN_MAX_PLY < best ∧ npmNonZero = true then
      if 1 < qce then qce
      else if (m.capture = false ∧ m.contHistNeg = true) ∨ m.seeBad = true then
        qsearchInCheckLoop npmNonZero beta alpha best qce ms
      else
        let st := qsearchInCheckStep alpha beta best qce m
        if st.2.2.2 then st.2.2.1
        else qsearchInCheckLoop npmNonZero beta st.1 st.2.1 st.2.2.1 ms
    else
      let st := qsearchInCheckStep alpha beta best qce m
      if st.2.2.2 then st.2.2.1
      else qsearchInCheckLoop npmNonZero beta st.1 st.2.1 st.2.2.1 ms

/-- A network stub returning (0, 0) for every position, used for the
concrete instantiations below. -/
def zeroNet : Position → Int × Int := fun _ => (0, 0)

/-- Default option state with the Aggressive style selected. -/
def aggrOpts : EvalOptions := ⟨0, 0, false, EvalStyle.aggressive⟩

/-- A concrete position for the style-bonus counterexample: White to
move, a single white knight on square 0 that is near the enemy king, no
pawns, no other style-relevant features. -/
def cposC1 : Position :=
  ⟨Color.white,
    fun s => if s = 0 then some (Color.white, PieceType.knight) else none,
    fun s => decide (s = 0),
    fun _ => false,
    fun _ => false,
    false,
    false,
    fun _ => 0,
    fun c => if c = Color.white then 1 else 0,
    fun _ => 0,
    fun _ => 0,
    fun _ => 0,
    fun c => if c = Color.white then 781 else 0,
    0⟩

/-- A legal quiet (non-capture) check evasion that survives the history
and SEE pruning tests and whose child search returns 0. -/
def quietEvasionEv : QMoveEv := ⟨true, false, false, false, 0⟩

/-- Three quiet check evasions in a row, for the quiet-evasion-cap
counterexample. -/
def threeQuietEvasions : List QMoveEv := [quietEvasionEv, quietEvasionEv, quietEvasionEv]

/-- A concrete node context exercising every child-window call site of
`search`, for the window-invariant witness. -/
def ctxC4 : NodeCtx :=
  ⟨false, false, true, 1, 3, true, true, true, true, 2, true, false, true, 7,
    [⟨true, true, false, true, 4⟩, ⟨false, false, true, false, 2⟩,
     ⟨true, false, false, true, 6⟩]⟩

/-- Summing `if p a then k else 0` over a list counts the elements
satisfying `p`. -/
theorem sum_ite_mul_count {α : Type} (l : List α) (p : α → Prop) [DecidablePred p] (k : Int) :
    (l.map (fun a => if p a then k else 0)).sum
      = k * ((l.countP (fun a => decide (p a)) : Nat) : Int) := by
  induction l with
  | nil => simp
  | cons a t ih =>
    rw [List.map_cons, List.sum_cons, ih, List.countP_cons]
    by_cases h : p a
    · simp only [h, if_true, decide_True]
      push_cast
      ring
    · simp [h]

/-- A pointwise sum of two square contributions splits into two sums. -/
theorem sum_map_split {α : Type} (l : List α) (f g : α → Int) :
    (l.map (fun a => f a + g a)).sum = (l.map f).sum + (l.map g).sum := by
  induction l with
  | nil => simp
  | cons a t ih =>
    simp only [List.map_cons, List.sum_cons, ih]
    ring

/-- C3: for every non-mate, non-TB value `v`, every ply, and every
rule-50 count below 90, reading back through `value_from_tt` the value
stored through `value_to_tt` at the same ply is the identity. -/
theorem c3_tt_value_roundtrip (v ply r50c : Int)
    (h1 : VALUE_TB_LOSS_IN_MAX_PLY < v) (h2 : v < VALUE_TB_WIN_IN_MAX_PLY)
    (h3 : r50c < 90) :
    value_from_tt (value_to_tt v ply) ply r50c = v := by
  unfold value_to_tt value_from_tt
  simp only [VALUE_TB_LOSS_IN_MAX_PLY, VALUE_TB_WIN_IN_MAX_PLY, VALUE_TB,
    VALUE_MATE_IN_MAX_PLY, VALUE_MATED_IN_MAX_PLY, VALUE_MATE, VALUE_NONE, MAX_PLY] at *
  split_ifs <;> omega

/-- Witness for C3 at `v = 0`, `ply = 5`, `r50c = 0`. -/
theorem c3_tt_value_roundtrip_witness : value_from_tt (value_to_tt 0 5) 5 0 = 0 :=
  c3_tt_value_roundtrip 0 5 0 (by decide) (by decide) (by decide)

/-- C10: for every 64-bit key and every cluster count in `size_t` range,
the fixed-point multiplicative hash of `first_entry` lands strictly
inside the table. -/
theorem c10_first_entry_in_range (key cc : Nat) (h1 : key < 2 ^ 64) (h2 : 1 ≤ cc)
    (h3 : cc < 2 ^ 64) : first_entry_index key cc < cc := by
  unfold first_entry_index
  have hcc : 0 < cc := h2
  have hstep : key * cc < 2 ^ 64 * cc := (Nat.mul_lt_mul_right hcc).mpr h1
  have hp : key * cc < 2 ^ 128 := by
    calc key * cc < 2 ^ 64 * cc := hstep
    _ ≤ 2 ^ 64 * 2 ^ 64 := Nat.mul_le_mul_left _ (Nat.le_of_lt h3)
    _ = 2 ^ 128 := by norm_num
  rw [Nat.mod_eq_of_lt hp]
  have h64 : 0 < 2 ^ 64 := Nat.pos_pow_of_pos 64 (by norm_num)
  rw [Nat.div_lt_iff_lt_mul h64]
  calc key * cc < 2 ^ 64 * cc := hstep
  _ = cc * 2 ^ 64 := Nat.mul_comm _ _

/-- Witness for C10 at `key = 3`, `clusterCount = 5`. -/
theorem c10_first_entry_in_range_witness : first_entry_index 3 5 < 5 :=
  c10_first_entry_in_range 3 5 (by norm_num) (by norm_num) (by norm_num)

/-- C2: the in-check ProbCut condition actually written in the code
diverges from the intended (claimed) one.  At `beta = 0` with every
other intended conjunct satisfied (NonPV in-check node, capture ttMove
with a LOWER bound at `ttDepth = depth - 4`, `ttValue = probCutBeta =
409`), the intended condition fires but the code does not return,
because the malformed conjunction tests `std::abs(beta)` as a boolean;
conversely at `beta = -31600`, outside the TB-safe range, the code
returns although the intended condition forbids it. -/
theorem c2_incheck_probcut_code_bug :
    specInCheckProbCutReturns true false true 2 1 5 409 0 = true
    ∧ inCheckProbCutReturns true false true 2 1 5 409 0 = false
    ∧ inCheckProbCutReturns true false true 2 1 5 0 (-31600) = true
    ∧ specInCheckProbCutReturns true false true 2 1 5 0 (-31600) = false := by decide

/-- C5 (amended): the razoring qsearch runs exactly when
`eval < alpha - 488 - (289 - 142 * [cutoffCnt of the next ply > 3]) * depth^2`;
when that count is not above 3 this coincides with the claimed margin
`alpha - 488 - 289 * depth^2`; and the qsearch value is returned exactly
when it is still below alpha. -/
theorem c5_razoring_amended (eval alpha depth : Int) (cutoffHigh : Bool) (qvalue : Int) :
    (razorStep eval alpha depth cutoffHigh qvalue).1 = razorCondition eval alpha depth cutoffHigh
    ∧ ((razorStep eval alpha depth cutoffHigh qvalue).2 = some qvalue
        ↔ razorCondition eval alpha depth cutoffHigh = true ∧ qvalue < alpha)
    ∧ razorCondition eval alpha depth false = specRazorCondition eval alpha depth := by
  refine ⟨?_, ?_, ?_⟩
  · cases hc : razorCondition eval alpha depth cutoffHigh <;> simp [razorStep, hc]
  · cases hc : razorCondition eval alpha depth cutoffHigh
    · simp [razorStep, hc]
    · simp only [razorStep, hc, if_true]
      by_cases hq : qvalue < alpha <;> simp [hq]
  · unfold razorCondition specRazorCondition
    norm_num

/-- C5 counterexample: with the next ply's `cutoffCnt` above 3,
`eval = -1200`, `alpha = 0`, `depth = 2`, the code performs the razoring
qsearch (margin `-1076`) and returns its value `-1300`, although the
claimed condition `eval < -1644` is false. -/
theorem c5_razoring_counterexample :
    (razorStep (-1200) 0 2 true (-1300)).1 = true
    ∧ (razorStep (-1200) 0 2 true (-1300)).2 = some (-1300)
    ∧ specRazorCondition (-1200) 0 2 = false := by decide

/-- C9 (amended): scores below the TB range are emitted as
`cp (100 * v / NormalizeToPawnValue)`; TB-range scores are emitted as
`cp +-(20000 - ply)` with `ply = VALUE_TB - 1 - |v|`; mate-range scores
are emitted as `mate (MATE - v + 1)/2` or `mate (-MATE - v)/2`. -/
theorem c9_uci_value_amended (v : Int) :
    (cppAbs v < VALUE_TB_WIN_IN_MAX_PLY →
      uciValue v = UciScore.cp (Int.tdiv (100 * v) NormalizeToPawnValue))
    ∧ (VALUE_TB_WIN_IN_MAX_PLY ≤ cppAbs v → cppAbs v ≤ VALUE_TB →
        uciValue v = UciScore.cp
          (if 0 < v then 20000 - (VALUE_TB - 1 - cppAbs v)
           else -20000 + (VALUE_TB - 1 - cppAbs v)))
    ∧ (VALUE_TB < cppAbs v →
        uciValue v = UciScore.mate
          (Int.tdiv (if 0 < v then VALUE_MATE - v + 1 else -VALUE_MATE - v) 2)) := by
  refine ⟨?_, ?_, ?_⟩
  · intro h
    unfold uciValue to_cp
    rw [if_pos h]
  · intro h1 h2
    unfold uciValue
    rw [if_neg (not_lt.mpr h1), if_pos h2]
  · intro h
    unfold uciValue
    have hW : VALUE_TB_WIN_IN_MAX_PLY ≤ cppAbs v := by
      simp only [VALUE_TB_WIN_IN_MAX_PLY, VALUE_TB, VALUE_MATE_IN_MAX_PLY, VALUE_MATE,
        MAX_PLY] at *
      omega
    rw [if_neg (not_lt.mpr hW), if_neg (not_le.mpr h)]

/-- Witness for C9 at a normal score, a TB-range score and a mate
score. -/
theorem c9_uci_value_amended_witness :
    uciValue 100 = UciScore.cp (Int.tdiv (100 * 100) NormalizeToPawnValue)
    ∧ uciValue 31600 = UciScore.cp
        (if 0 < (31600 : Int) then 20000 - (VALUE_TB - 1 - cppAbs 31600)
         else -20000 + (VALUE_TB - 1 - cppAbs 31600))
    ∧ uciValue 31999 = UciScore.mate
        (Int.tdiv (if 0 < (31999 : Int) then VALUE_MATE - 31999 + 1 else -VALUE_MATE - 31999) 2) :=
  ⟨(c9_uci_value_amended 100).1 (by decide),
   (c9_uci_value_amended 31600).2.1 (by decide) (by decide),
   (c9_uci_value_amended 31999).2.2 (by decide)⟩

/-- C9 counterexample: `v = 31600` is not a mate score, yet `UCI::value`
does not emit `cp (100 * v / NormalizeToPawnValue)`: it takes the TB
branch and emits `cp 19848`, while the claim predicts `cp 9634`. -/
theorem c9_uci_value_counterexample :
    uciValue 31600 ≠ specUciValue 31600 ∧ uciValue 31600 = UciScore.cp 19848
    ∧ specUciValue 31600 = UciScore.cp 9634 := by decide

/-- The final clamp of `Eval::evaluate` keeps the value strictly inside
the tablebase range. -/
theorem cppClamp_tb_strict (v : Int) :
    VALUE_TB_LOSS_IN_MAX_PLY
        < cppClamp v (VALUE_TB_LOSS_IN_MAX_PLY + 1) (VALUE_TB_WIN_IN_MAX_PLY - 1)
    ∧ cppClamp v (VALUE_TB_LOSS_IN_MAX_PLY + 1) (VALUE_TB_WIN_IN_MAX_PLY - 1)
        < VALUE_TB_WIN_IN_MAX_PLY := by
  unfold cppClamp
  simp only [VALUE_TB_LOSS_IN_MAX_PLY, VALUE_TB_WIN_IN_MAX_PLY, VALUE_TB,
    VALUE_MATE_IN_MAX_PLY, VALUE_MATE, MAX_PLY]
  split_ifs <;> omega

/-- C6: for every position not in check and every optimism input,
`Eval::evaluate` returns a value strictly above
`VALUE_TB_LOSS_IN_MAX_PLY` and strictly below
`VALUE_TB_WIN_IN_MAX_PLY`. -/
theorem c6_evaluate_clamped (bigNet smallNet : Position → Int × Int) (opts : EvalOptions)
    (pos : Position) (optimism : Int) (h : pos.checkers = false) :
    VALUE_TB_LOSS_IN_MAX_PLY < evaluate bigNet smallNet opts pos optimism
    ∧ evaluate bigNet smallNet opts pos optimism < VALUE_TB_WIN_IN_MAX_PLY := by
  unfold evaluate finalize
  exact cppClamp_tb_strict _

/-- Witness for C6 at a concrete position and the zero network. -/
theorem c6_evaluate_clamped_witness :
    cposC1.checkers = false
    ∧ (VALUE_TB_LOSS_IN_MAX_PLY < evaluate zeroNet zeroNet aggrOpts cposC1 0
       ∧ evaluate zeroNet zeroNet aggrOpts cposC1 0 < VALUE_TB_WIN_IN_MAX_PLY) :=
  ⟨rfl, c6_evaluate_clamped zeroNet zeroNet aggrOpts cposC1 0 rfl⟩

/-- C7: the small network is selected exactly when
`|simple_eval(pos)| > 962`, the big-net re-evaluation fires exactly when
the small net was used and the styled blend is below 236 in magnitude,
and in that case the big-net result replaces the small-net one in the
rest of the evaluation. -/
theorem c7_smallnet_gate (bigNet smallNet : Position → Int × Int) (opts : EvalOptions)
    (pos : Position) (optimism : Int) :
    netOutput bigNet smallNet pos
      = (if 962 < cppAbs (simple_eval pos) then smallNet pos else bigNet pos)
    ∧ reEvalCond bigNet smallNet opts pos
        = (use_smallnet pos && decide (cppAbs (nnueStyled bigNet smallNet opts pos) < 236))
    ∧ evaluate bigNet smallNet opts pos optimism
        = (if reEvalCond bigNet smallNet opts pos then
             finalize pos optimism (bigNet pos).1 (bigNet pos).2
               (blend (evalWeights opts pos).1 (evalWeights opts pos).2
                 (bigNet pos).1 (bigNet pos).2)
           else
             finalize pos optimism (netOutput bigNet smallNet pos).1
               (netOutput bigNet smallNet pos).2 (nnueStyled bigNet smallNet opts pos)) := by
  refine ⟨?_, ?_, ?_⟩
  · by_cases hs : 962 < cppAbs (simple_eval pos) <;> simp [netOutput, use_smallnet, hs]
  · rfl
  · by_cases hr : reEvalCond bigNet smallNet opts pos = true <;>
      simp [evaluate, finalTriple, hr]

/-- C1 (amended): with the Aggressive style, `Eval::evaluate` adds to
the blended score `nnue` exactly 40 per friendly knight near the enemy
king (20 from `calculate_aggressiveness_bonus` plus 20 from the inline
loop) and 10 per friendly pawn on relative rank at least 5. -/
theorem c1_aggressive_bonus_amended (bigNet smallNet : Position → Int × Int)
    (opts : EvalOptions) (pos : Position) (h : opts.style = EvalStyle.aggressive) :
    nnueStyled bigNet smallNet opts pos
      = blend (evalWeights opts pos).1 (evalWeights opts pos).2
          (netOutput bigNet smallNet pos).1 (netOutput bigNet smallNet pos).2
        + (40 * ((knightNearCount pos : Nat) : Int)
           + 10 * ((advancedPawnCount pos : Nat) : Int)) := by
  unfold nnueStyled
  simp only [styleAdjust, h]
  rw [sum_map_split, calculate_aggressiveness_bonus,
    sum_ite_mul_count squares
      (fun s => pos.pieceOn s = some (pos.sideToMove, PieceType.knight)
        ∧ pos.isNearEnemyKing s = true) 20,
    sum_ite_mul_count squares
      (fun s => pos.pieceOn s = some (pos.sideToMove, PieceType.pawn)
        ∧ 4 ≤ relativeRank pos.sideToMove s) 10]
  unfold knightNearCount advancedPawnCount
  ring

/-- C1 counterexample: at a position with a single friendly knight near
the enemy king and no advanced pawns, and with a network returning
(0, 0), the Aggressive style moves `nnue` from 0 to 40, not to the
claimed 20 per knight plus 10 per pawn = 20. -/
theorem c1_aggressive_bonus_counterexample :
    ¬ (nnueStyled zeroNet zeroNet aggrOpts cposC1
        = blend (evalWeights aggrOpts cposC1).1 (evalWeights aggrOpts cposC1).2
            (netOutput zeroNet zeroNet cposC1).1 (netOutput zeroNet zeroNet cposC1).2
          + (20 * ((knightNearCount cposC1 : Nat) : Int)
             + 10 * ((advancedPawnCount cposC1 : Nat) : Int))) := by decide

/-- Witness for C1 (amended) at the concrete position `cposC1`. -/
theorem c1_aggressive_bonus_amended_witness :
    aggrOpts.style = EvalStyle.aggressive
    ∧ nnueStyled zeroNet zeroNet aggrOpts cposC1
        = blend (evalWeights aggrOpts cposC1).1 (evalWeights aggrOpts cposC1).2
            (netOutput zeroNet zeroNet cposC1).1 (netOutput zeroNet zeroNet cposC1).2
          + (40 * ((knightNearCount cposC1 : Nat) : Int)
             + 10 * ((advancedPawnCount cposC1 : Nat) : Int)) :=
  ⟨rfl, c1_aggressive_bonus_amended zeroNet zeroNet aggrOpts cposC1 rfl⟩

/-- An element of a conditional child-search window list is that
window. -/
theorem mem_optWindow {c : Bool} {x w : Int × Int} (h : w ∈ optWindow c x) : w = x := by
  unfold optWindow at h
  split_ifs at h <;> simp_all

/-- The move loop of `search` passes only well-formed windows and keeps
`alpha < beta` while threading alpha. -/
theorem searchLoopWindows_valid (evs : List MoveEv) :
    ∀ a b : Int, a < b → ∀ w ∈ searchLoopWindows a b evs, w.1 < w.2 := by
  induction evs with
  | nil => intro a b _ w hw; simp [searchLoopWindows] at hw
  | cons e es ih =>
    intro a b hab w hw
    unfold searchLoopWindows at hw
    rw [List.mem_append] at hw
    rcases hw with hw | hw
    · rw [List.mem_append, List.mem_append, List.mem_append] at hw
      rcases hw with (((hw | hw) | hw) | hw) <;>
        (split_ifs at hw <;> simp_all)
    · split_ifs at hw with h1 h2
      · simp at hw
      · exact ih e.value b (by omega) w hw
      · exact ih a b hab w hw

/-- The move loop of `qsearch` passes only well-formed windows and keeps
`alpha < beta` while threading alpha. -/
theorem qsearchLoopWindows_valid (evs : List QEv) :
    ∀ a b : Int, a < b → ∀ w ∈ qsearchLoopWindows a b evs, w.1 < w.2 := by
  induction evs with
  | nil => intro a b _ w hw; simp [qsearchLoopWindows] at hw
  | cons e es ih =>
    intro a b hab w hw
    unfold qsearchLoopWindows at hw
    split_ifs at hw with h1 h2 h3
    · simp at hw
      subst hw
      omega
    · rcases List.mem_cons.mp hw with hw | hw
      · subst hw
        omega
      · exact ih e.value b (by omega) w hw
    · rcases List.mem_cons.mp hw with hw | hw
      · subst hw
        omega
      · exact ih a b hab w hw
    · exact ih a b hab w hw

/-- C4: for a node entered with `alpha < beta`, every window that
`search` or `qsearch` passes to a recursive child (depth-zero qsearch,
razoring, null move, verification, post-IIR qsearch, ProbCut, singular,
LMR and zero-window searches, PV re-searches, and the qsearch move
loop) again satisfies `alpha < beta`. -/
theorem c4_window_invariant (ctx : NodeCtx) (hasCycle : Bool) (drawValue : Int)
    (inCheck : Bool) (standPat : Int) (qevents : List QEv) (alpha beta : Int)
    (h : alpha < beta) :
    (∀ w ∈ searchChildWindows ctx alpha beta, w.1 < w.2)
    ∧ (∀ w ∈ qsearchChildWindows hasCycle drawValue inCheck standPat alpha beta qevents,
        w.1 < w.2) := by
  constructor
  · intro w hw
    simp only [searchChildWindows] at hw
    split_ifs at hw with h1 h2 h3
    · simp at hw
      subst hw
      omega
    · simp at hw
    · simp at hw
    · rw [List.mem_append] at hw
      rcases hw with hw | hw
      on_goal 2 => exact searchLoopWindows_valid ctx.events _ _ (by omega) w hw
      rw [List.mem_append] at hw
      rcases hw with hw | hw
      on_goal 2 =>
        have hx := mem_optWindow hw
        subst hx
        omega
      rw [List.mem_append] at hw
      rcases hw with hw | hw
      on_goal 2 =>
        rw [List.mem_replicate] at hw
        have hx := hw.2
        subst hx
        omega
      rw [List.mem_append] at hw
      rcases hw with hw | hw
      on_goal 2 =>
        have hx := mem_optWindow hw
        subst hx
        omega
      rw [List.mem_append] at hw
      rcases hw with hw | hw
      on_goal 2 =>
        have hx := mem_optWindow hw
        subst hx
        omega
      rw [List.mem_append] at hw
      rcases hw with hw | hw
      · have hx := mem_optWindow hw
        subst hx
        omega
      · have hx := mem_optWindow hw
        subst hx
        omega
  · intro w hw
    simp only [qsearchChildWindows] at hw
    split_ifs at hw with h1 h2
    · simp at hw
    · simp at hw
    · have ha : qstandAlpha inCheck standPat (qcycleAlpha hasCycle drawValue alpha) < beta := by
        unfold qstandAlpha
        split_ifs with hsp
        · push_neg at h2
          have := h2 hsp.1
          omega
        · omega
      exact qsearchLoopWindows_valid qevents _ beta ha w hw

/-- Witness for C4 at a concrete node context that exercises every
child call site. -/
theorem c4_window_invariant_witness :
    (∀ w ∈ searchChildWindows ctxC4 (-5) 5, w.1 < w.2)
    ∧ (∀ w ∈ qsearchChildWindows true 1 false 2 (-5) 5 [⟨true, 3⟩, ⟨false, 0⟩],
        w.1 < w.2) :=
  c4_window_invariant ctxC4 true 1 false 2 [⟨true, 3⟩, ⟨false, 0⟩] (-5) 5 (by norm_num)

/-- The in-check qsearch per-move tail increments the quiet-evasion
counter exactly for non-captures. -/
theorem qsearchInCheckStep_qce (alpha beta best : Int) (qce : Nat) (m : QMoveEv) :
    (qsearchInCheckStep alpha beta best qce m).2.2.1 = if m.capture then qce else qce + 1 := by
  unfold qsearchInCheckStep
  split_ifs <;> rfl

/-- The in-check qsearch per-move tail leaves `bestValue` alone or sets
it to the searched value. -/
theorem qsearchInCheckStep_best (alpha beta best : Int) (qce : Nat) (m : QMoveEv) :
    (qsearchInCheckStep alpha beta best qce m).2.1 = best
    ∨ (qsearchInCheckStep alpha beta best qce m).2.1 = m.value := by
  unfold qsearchInCheckStep
  split_ifs <;> simp

/-- When the searched value improves on `bestValue`, the per-move tail
records it. -/
theorem qsearchInCheckStep_best_lt (alpha beta best : Int) (qce : Nat) (m : QMoveEv)
    (h : best < m.value) :
    (qsearchInCheckStep alpha beta best qce m).2.1 = m.value := by
  unfold qsearchInCheckStep
  split_ifs <;> rfl

/-- Invariant induction for the in-check qsearch loop: with non-pawn
material present and every child value above the TB-loss bound, the
quiet-evasion counter never passes 2. -/
theorem qsearchInCheckLoop_cap (ms : List QMoveEv) :
    ∀ (alpha best : Int) (qce : Nat) (beta : Int),
      (∀ m ∈ ms, VALUE_TB_LOSS_IN_MAX_PLY < m.value) →
      qce ≤ 2 → (best ≤ VALUE_TB_LOSS_IN_MAX_PLY → qce = 0) →
      qsearchInCheckLoop true beta alpha best qce ms ≤ 2 := by
  induction ms with
  | nil =>
    intro alpha best qce beta _ hq _
    simpa [qsearchInCheckLoop] using hq
  | cons m ms ih =>
    intro alpha best qce beta hv hq hb
    have hvm : VALUE_TB_LOSS_IN_MAX_PLY < m.value := hv m (List.mem_cons_self m ms)
    have hvs : ∀ x ∈ ms, VALUE_TB_LOSS_IN_MAX_PLY < x.value :=
      fun x hx => hv x (List.mem_cons_of_mem m hx)
    unfold qsearchInCheckLoop
    dsimp only
    split_ifs with h1 h2 h3 h4 h5 h6
    · exact ih alpha best qce beta hvs hq hb
    · exact hq
    · exact ih alpha best qce beta hvs hq hb
    · rw [qsearchInCheckStep_qce]
      split_ifs <;> omega
    · apply ih
      · exact hvs
      · rw [qsearchInCheckStep_qce]
        split_ifs <;> omega
      · intro hle
        rcases qsearchInCheckStep_best alpha beta best qce m with he | he <;>
          rw [he] at hle <;> omega
    · rw [qsearchInCheckStep_qce]
      have hbest : best ≤ VALUE_TB_LOSS_IN_MAX_PLY := by
        by_contra hc
        push_neg at hc
        exact h2 ⟨hc, rfl⟩
      have h0 : qce = 0 := hb hbest
      split_ifs <;> omega
    · have hbest : best ≤ VALUE_TB_LOSS_IN_MAX_PLY := by
        by_contra hc
        push_neg at hc
        exact h2 ⟨hc, rfl⟩
      have h0 : qce = 0 := hb hbest
      apply ih
      · exact hvs
      · rw [qsearchInCheckStep_qce]
        split_ifs <;> omega
      · intro hle
        rw [qsearchInCheckStep_best_lt alpha beta best qce m (by omega)] at hle
        omega

/-- C8 (amended): in the in-check qsearch move loop, when the side to
move has non-pawn material and every searched evasion scores above
`VALUE_TB_LOSS_IN_MAX_PLY`, at most two quiet evasions are ever
searched (the counter that breaks the loop, incremented exactly for
searched quiet evasions, never passes 2). -/
theorem c8_quiet_evasion_cap_amended (beta alpha : Int) (moves : List QMoveEv)
    (h : ∀ m ∈ moves, VALUE_TB_LOSS_IN_MAX_PLY < m.value) :
    qsearchInCheckLoop true beta alpha (-VALUE_INFINITE) 0 moves ≤ 2 :=
  qsearchInCheckLoop_cap moves alpha (-VALUE_INFINITE) 0 beta h (by omega) (fun _ => rfl)

/-- Witness for C8 (amended) on three quiet evasions with non-pawn
material present: only two get searched. -/
theorem c8_quiet_evasion_cap_amended_witness :
    (∀ m ∈ threeQuietEvasions, VALUE_TB_LOSS_IN_MAX_PLY < m.value)
    ∧ qsearchInCheckLoop true 100 (-100) (-VALUE_INFINITE) 0 threeQuietEvasions ≤ 2 :=
  ⟨by decide, c8_quiet_evasion_cap_amended 100 (-100) threeQuietEvasions (by decide)⟩

/-- C8 counterexample: when the side to move has no non-pawn material
(`pos.non_pawn_material(us) == 0`), the pruning block that enforces the
cap is skipped entirely, and three quiet check evasions are searched. -/
theorem c8_quiet_evasion_cap_counterexample :
    2 < qsearchInCheckLoop false 100 (-100) (-VALUE_INFINITE) 0 threeQuietEvasions := by decide

/-- Witness for C5 (amended) at `eval = -1200`, `alpha = 0`,
`depth = 2`, a high next-ply cutoff count and qsearch value `-1300`. -/
theorem c5_razoring_amended_witness :
    (razorStep (-1200) 0 2 true (-1300)).1 = razorCondition (-1200) 0 2 true
    ∧ ((razorStep (-1200) 0 2 true (-1300)).2 = some (-1300)
        ↔ razorCondition (-1200) 0 2 true = true ∧ (-1300 : Int) < 0)
    ∧ razorCondition (-1200) 0 2 false = specRazorCondition (-1200) 0 2 :=
  c5_razoring_amended (-1200) 0 2 true (-1300)

/-- Witness for C7 at a concrete position and the zero network. -/
theorem c7_smallnet_gate_witness :
    netOutput zeroNet zeroNet cposC1
      = (if 962 < cppAbs (simple_eval cposC1) then zeroNet cposC1 else zeroNet cposC1)
    ∧ reEvalCond zeroNet zeroNet aggrOpts cposC1
        = (use_smallnet cposC1
            && decide (cppAbs (nnueStyled zeroNet zeroNet aggrOpts cposC1) < 236))
    ∧ evaluate zeroNet zeroNet aggrOpts cposC1 0
        = (if reEvalCond zeroNet zeroNet aggrOpts cposC1 then
             finalize cposC1 0 (zeroNet cposC1).1 (zeroNet cposC1).2
               (blend (evalWeights aggrOpts cposC1).1 (evalWeights aggrOpts cposC1).2
                 (zeroNet cposC1).1 (zeroNet cposC1).2)
           else
             finalize cposC1 0 (netOutput zeroNet zeroNet cposC1).1
               (netOutput zeroNet zeroNet cposC1).2
               (nnueStyled zeroNet zeroNet aggrOpts cposC1)) :=
  c7_smallnet_gate zeroNet zeroNet aggrOpts cposC1 0
